import Mathlib

/-!
# Leaderboard demo — verification of the spec's claims against the source

Shallow embedding of the leaderboard backend:
* `src/backend/leaderboard_websocket.py` — websocket server with a DynamoDB
  GSI (`score-index`) primary read path, a scan-and-sort fallback, an
  increment-mode (`ADD`) submission path keyed by `md5(player_name.lower())`,
  a periodic broadcast-suppressing update cycle, and a dead-channel-pruning
  broadcast loop.
* `src/backend/leaderboard_server.py` — older websocket variant: `put_item`
  (replace-mode) submissions keyed by the client-supplied `player_id`, and a
  broadcast loop that removes a dead channel from the set *while iterating it*.
* `src/backend/webhook.py` — HTTP handler persisting submissions with
  `put_item` and answering with a scan-and-sort top-10.

Python machine-level conventions used throughout the embedding:
* DynamoDB tables are association lists keyed by `player_id`; DynamoDB itself
  is an external service, so where its query semantics matter they are modelled
  from the query parameters present in the source (see `primaryTop`).
* `sorted(items, key=…, reverse=True)` is Python's stable descending sort; it
  is embedded as `List.insertionSort` with the relation `key y ≤ key x`,
  which is sorted and stable for the same total preorder, hence extensionally
  equal to any stable descending sort.
* Exceptions are `Except String`; a Python `try/except` is a `match` on it.
* `hashlib.md5(…).hexdigest()` is an external library call and enters the
  embedding as an uninterpreted function parameter `md5Hex : String → String`.
-/

namespace Leaderboard

/-- A row of the websocket server's `leaderboard` table.  Every row written by
the server carries all of these attributes (`update_item` `SET`s them), with
`score` maintained by the atomic `ADD` clause. -/
structure Entry where
  player_id : String
  player_name : String
  leaderboard_id : String
  score : Int
  timestamp : Nat
deriving DecidableEq, Repr

/-- A row of the `Leaderboard` table written by `leaderboard_server.py`
(`put_item` with `player_id`, `player_name`, `score`, `last_updated`) and by
`webhook.py` (`player_id`, `score`, `timestamp`, optional `player_name`).
DynamoDB items are schemaless, so the name attribute is optional. -/
structure LItem where
  player_id : String
  player_name : Option String
  score : Int
  ts : Nat
deriving DecidableEq, Repr

/-- Python's `sorted(l, key=key, reverse=True)`: the stable descending sort by
`key`.  Embedded as insertion sort with `key y ≤ key x`, which agrees with any
stable descending sort. -/
def sortByKeyDesc {α : Type} (key : α → Int) (l : List α) : List α :=
  List.insertionSort (fun x y => key y ≤ key x) l

/-- `sorted(items, key=lambda x: x.get('score', 0), reverse=True)[:limit]` —
the scan-and-sort ranking shared by the websocket fallback
(`leaderboard_websocket.py` line 121), `leaderboard_server.update_leaderboard`
(lines 44–49) and `webhook.get_leaderboard` (lines 61–66). -/
def topK {α : Type} (key : α → Int) (l : List α) (limit : Nat) : List α :=
  (sortByKeyDesc key l).take limit

/-- The order the spec asserts for snapshots: strictly descending score,
ties broken by ascending entity id. -/
def SpecOrdered (l : List Entry) : Prop :=
  l.Pairwise fun x y => y.score < x.score ∨ (x.score = y.score ∧ x.player_id < y.player_id)

instance : DecidablePred SpecOrdered := fun l =>
  List.instDecidablePairwise l

/-! ## Read path of `leaderboard_websocket.get_leaderboard` (lines 81–124) -/

/-- The GSI query of `get_leaderboard` (lines 90–102).  The query parameters in
the source are: `KeyConditionExpression = 'leaderboard_id = :lid AND #score >
:zero'` with `:lid = 'default_leaderboard'`, `:zero = 0`,
`ScanIndexForward=False` (descending by the `score` sort key) and
`Limit=limit`.  DynamoDB is external, so this definition renders those
parameters: keep the partition `default_leaderboard` with positive score, sort
descending by score, truncate.  (DynamoDB does not specify the relative order
of equal sort keys; the stable sort is a modelling choice there.) -/
def primaryTop (store : List Entry) (limit : Nat) : List Entry :=
  topK Entry.score
    (store.filter fun it =>
      it.leaderboard_id == "default_leaderboard" && decide (0 < it.score)) limit

/-- The fallback of `get_leaderboard` (lines 117–121): `table.scan()` over the
whole table, then `sorted(items, key=lambda x: x.get('score', 0),
reverse=True)[:limit]`.  No partition or positivity filter is applied. -/
def fallbackTop (store : List Entry) (limit : Nat) : List Entry :=
  topK Entry.score store limit

/-- `get_leaderboard(limit)` (lines 81–124) with its two nested
`try/except Exception` blocks.  `primaryFails` models the outer `try` raising
(GSI unavailable / query error), `scanFails` the fallback `table.scan()`
raising; the final handler returns `[]`.  The codomain is `Except` so that an
uncaught exception would show up as `.error` — the theorems show none does. -/
def get_leaderboard (store : List Entry) (primaryFails scanFails : Bool)
    (limit : Nat) : Except String (List Entry) :=
  if !primaryFails then
    .ok (primaryTop store limit)
  else if !scanFails then
    .ok (fallbackTop store limit)
  else
    .ok []

/-! ## Properties of the stable descending sort -/

theorem sortByKeyDesc_sorted {α : Type} (key : α → Int) (l : List α) :
    (sortByKeyDesc key l).Pairwise fun x y => key y ≤ key x := by
  haveI : IsTotal α (fun x y => key y ≤ key x) :=
    ⟨fun a b => (le_total (key b) (key a)).imp id id⟩
  haveI : IsTrans α (fun x y => key y ≤ key x) :=
    ⟨fun _ _ _ h1 h2 => le_trans h2 h1⟩
  exact List.sorted_insertionSort _ l

theorem sortByKeyDesc_perm {α : Type} (key : α → Int) (l : List α) :
    List.Perm (sortByKeyDesc key l) l :=
  List.perm_insertionSort _ l

/-- Inserting `a` leaves the sequence of elements with any given key value
unchanged, except that when `a` has that key it lands after all of them that
are already present (it is walked past only elements with strictly larger
keys). -/
theorem filter_orderedInsert_key {α : Type} (key : α → Int) (s : Int) (a : α) :
    ∀ l : List α,
      (List.orderedInsert (fun x y => key y ≤ key x) a l).filter
          (fun x => decide (key x = s)) =
        if key a = s then a :: l.filter (fun x => decide (key x = s))
        else l.filter (fun x => decide (key x = s))
  | [] => by
    by_cases h : key a = s <;> simp [List.orderedInsert, List.filter_cons, h]
  | b :: l => by
    have ih := filter_orderedInsert_key key s a l
    by_cases hab : key b ≤ key a
    · have e : List.orderedInsert (fun x y => key y ≤ key x) a (b :: l) =
          a :: b :: l := by
        simp [List.orderedInsert, hab]
      rw [e]
      by_cases h : key a = s <;> by_cases hb : key b = s <;>
        simp [List.filter_cons, h, hb]
    · have e : List.orderedInsert (fun x y => key y ≤ key x) a (b :: l) =
          b :: List.orderedInsert (fun x y => key y ≤ key x) a l := by
        simp [List.orderedInsert, hab]
      rw [e]
      by_cases h : key a = s
      · have hbs : ¬ key b = s := fun hb => hab (le_of_eq (hb.trans h.symm))
        simp [List.filter_cons, ih, h, hbs]
      · by_cases hb : key b = s <;>
          simp [List.filter_cons, ih, h, hb]

/-- Stability of the embedded sort: the entries holding any fixed key value
appear in the output in exactly their input order.  This is the tie-breaking
behaviour Python's stable `sorted` actually guarantees. -/
theorem filter_sortByKeyDesc {α : Type} (key : α → Int) (s : Int) :
    ∀ l : List α,
      (sortByKeyDesc key l).filter (fun x => decide (key x = s)) =
        l.filter (fun x => decide (key x = s))
  | [] => rfl
  | a :: l => by
    have ih := filter_sortByKeyDesc key s l
    by_cases h : key a = s <;>
      simp [sortByKeyDesc, List.insertionSort, filter_orderedInsert_key, h,
        List.filter_cons, ih] <;>
      simpa [sortByKeyDesc] using ih

/-! ## C1 artifacts -/

/-- Two stored entries with equal scores, listed by the store in descending
id order (DynamoDB scan order is arbitrary). -/
def c1entryA : Entry :=
  { player_id := "a", player_name := "a", leaderboard_id := "default_leaderboard",
    score := 10, timestamp := 0 }

def c1entryB : Entry :=
  { player_id := "b", player_name := "b", leaderboard_id := "default_leaderboard",
    score := 10, timestamp := 0 }

/-- C1 counterexample: on the store `[B, A]` (both score 10), the
scan-and-sort ranking keeps the scan order `[B, A]` because Python's sort is
stable and compares only the score; the result is neither strictly descending
by score nor tie-broken by ascending entity id, so the claimed ordering fails
at this concrete input. -/
theorem c1_tie_order_counterexample :
    ¬ SpecOrdered (topK Entry.score [c1entryB, c1entryA] 10) := by
  intro hcontra
  have e : topK Entry.score [c1entryB, c1entryA] 10 = [c1entryB, c1entryA] := by
    rfl
  rw [e] at hcontra
  have hrel := (List.pairwise_cons.mp hcontra).1 c1entryA (by simp)
  rcases hrel with hlt | ⟨-, hid⟩
  · exact absurd hlt (by decide)
  · rw [String.lt_iff_toList_lt] at hid
    exact absurd hid (by decide)

/-- C1 (amended): every ranking produced by the scan-and-sort path
(`get_leaderboard` fallback, `leaderboard_server.update_leaderboard`,
`webhook.get_leaderboard`) has at most `limit` entries and is sorted by score
in non-increasing (not strictly decreasing) order; the underlying sort is a
permutation of the stored entries, and entries with equal scores keep the
store's iteration order rather than being re-ordered by entity id. -/
theorem c1_topK_bound_sorted_stable {α : Type} (key : α → Int) (l : List α)
    (limit : Nat) :
    (topK key l limit).length ≤ limit
    ∧ (topK key l limit).Pairwise (fun x y => key y ≤ key x)
    ∧ List.Perm (sortByKeyDesc key l) l
    ∧ ∀ s : Int, (sortByKeyDesc key l).filter (fun x => decide (key x = s)) =
        l.filter (fun x => decide (key x = s)) := by
  refine ⟨?_, ?_, sortByKeyDesc_perm key l, fun s => filter_sortByKeyDesc key s l⟩
  · exact List.length_take_le limit (sortByKeyDesc key l)
  · exact (sortByKeyDesc_sorted key l).sublist (List.take_sublist limit _)

/-! ## C5 artifacts — primary query path vs fallback scan -/

/-- A stored entry outside the `default_leaderboard` partition (the client may
submit any `leaderboard_id`; `data.get('leaderboard_id',
'default_leaderboard')` stores it verbatim). -/
def c5entryX : Entry :=
  { player_id := "x", player_name := "x", leaderboard_id := "other",
    score := 100, timestamp := 0 }

def c5entryY : Entry :=
  { player_id := "y", player_name := "y", leaderboard_id := "default_leaderboard",
    score := 5, timestamp := 0 }

/-- C5 counterexample: the GSI query only ranks rows with
`leaderboard_id = 'default_leaderboard'` and `score > 0`, while the fallback
scan ranks the whole table.  On a store holding a high-scoring row in another
partition the two paths return different rankings, so they are not
equivalent. -/
theorem c5_filter_mismatch_counterexample :
    primaryTop [c5entryX, c5entryY] 10 ≠ fallbackTop [c5entryX, c5entryY] 10 := by
  decide

/-- C5 (amended): the fallback scan-and-sort agrees with the primary index
query exactly on stores in which every entry lies in the
`default_leaderboard` partition and has positive score; entries outside that
partition (or with non-positive scores) are ranked only by the fallback.
(Relative order of equal scores on the primary path is not specified by the
index and is modelled as the fallback's stable order.) -/
theorem c5_paths_agree_on_default_positive (store : List Entry) (limit : Nat)
    (h : ∀ it ∈ store, it.leaderboard_id = "default_leaderboard" ∧ 0 < it.score) :
    primaryTop store limit = fallbackTop store limit := by
  have hfilter : (store.filter fun it =>
      it.leaderboard_id == "default_leaderboard" && decide (0 < it.score)) = store := by
    apply List.filter_eq_self.mpr
    intro a ha
    rcases h a ha with ⟨h1, h2⟩
    simp [h1, h2]
  unfold primaryTop fallbackTop
  rw [hfilter]

theorem c5_witness :
    primaryTop [c5entryY] 10 = fallbackTop [c5entryY] 10 :=
  c5_paths_agree_on_default_positive [c5entryY] 10 (by decide)

/-! ## C8 artifacts — `get_leaderboard` never raises -/

/-- C8: `get_leaderboard` never raises to its caller: every combination of
primary-path and fallback-path failure yields an `.ok` result; when the
primary GSI query fails it answers from the scan-and-sort fallback, and when
the fallback scan fails too it returns the empty list (lines 114–124). -/
theorem c8_get_leaderboard_never_raises (store : List Entry)
    (primaryFails scanFails : Bool) (limit : Nat) :
    (∃ v, get_leaderboard store primaryFails scanFails limit = .ok v)
    ∧ (primaryFails = false →
        get_leaderboard store primaryFails scanFails limit =
          .ok (primaryTop store limit))
    ∧ (primaryFails = true → scanFails = false →
        get_leaderboard store primaryFails scanFails limit =
          .ok (fallbackTop store limit))
    ∧ (primaryFails = true → scanFails = true →
        get_leaderboard store primaryFails scanFails limit = .ok []) := by
  cases primaryFails <;> cases scanFails <;>
    simp [get_leaderboard]

theorem c8_witness : get_leaderboard [] true true 10 = .ok [] :=
  (c8_get_leaderboard_never_raises [] true true 10).2.2.2 rfl rfl

/-! ## Inbound `submit_score` handling (`leaderboard_websocket.handle_connection`,
lines 215–277) -/

/-- A JSON value found in the `score` field of a decoded message. -/
inductive JVal where
  | jnum (n : Int)
  | jstr (s : String)
  | jnull
  | jarr
  | jobj
deriving DecidableEq, Repr

/-- Python's `int(x)` on a JSON-decoded value: integers pass through, strings
are parsed (raising `ValueError` when unparsable), `None`/lists/objects raise
`TypeError`.  (Parsable-string details beyond `String.toInt?` and float
truncation are not needed by any claim.) -/
def pyInt : JVal → Except String Int
  | .jnum n => .ok n
  | .jstr s =>
    match s.toInt? with
    | some n => .ok n
    | none => .error "ValueError"
  | .jnull => .error "TypeError"
  | .jarr => .error "TypeError"
  | .jobj => .error "TypeError"

/-- A decoded inbound message, with each field optional as in a Python dict
(`data.get(…)` / `data['…']`). -/
structure SubmitMsg where
  action : Option String
  player_id : Option String
  player_name : Option String
  leaderboard_id : Option String
  score : Option JVal
deriving DecidableEq, Repr

/-- What the handler did with one message, besides updating the store. -/
inductive HandlerEffect where
  /-- `websocket.send({'type': 'error', 'message': …})` followed by `continue`. -/
  | errorReply (msg : String)
  /-- `table.update_item` ran, keyed by `key`; the handler then forces a
  refresh and broadcast. -/
  | stored (key : String)
  /-- An exception escaped to the per-message `except Exception` handler
  (line 283): no reply, nothing persisted, the loop continues. -/
  | swallowed
  /-- Unknown action: logged and ignored. -/
  | ignored
deriving DecidableEq, Repr

def invalidScoreMsg : String := "Invalid score: must be a positive number"

/-- Python's `str.lower()`: character-wise lower-casing.  (Defined as a
structural map so that concrete instances evaluate; `String.toLower` is the
same function but is defined by well-founded recursion.) -/
def pyLower (s : String) : String := String.mk (s.data.map Char.toLower)

/-- `table.update_item(Key={'player_id': pid}, UpdateExpression='ADD #score
:score_val SET #timestamp …, #player_name …, #leaderboard_id …')`
(lines 222–266): DynamoDB `ADD` increments the score of the existing item
with key `pid`, or creates the item with `score = delta` if absent; the `SET`
clauses overwrite the other attributes either way. -/
def update_item_add (store : List Entry) (pid pname lid : String) (now : Nat)
    (delta : Int) : List Entry :=
  if store.any (fun it => it.player_id == pid) then
    store.map fun it =>
      if it.player_id == pid then
        { it with
          score := it.score + delta
          player_name := pname
          leaderboard_id := lid
          timestamp := now }
      else it
  else
    store ++ [{ player_id := pid
                player_name := pname
                leaderboard_id := lid
                score := delta
                timestamp := now }]

/-- One iteration of the websocket server's message loop on an already
JSON-decoded message (lines 211–284).  `md5Hex` is `hashlib.md5(·).hexdigest()`
(an external library call, left uninterpreted); `now` is the wall clock.
Control flow mirrors the source: `data['player_id']` raises `KeyError` when
the field is missing (line 217) and the per-message `except Exception`
swallows it; otherwise the key is recomputed as the MD5 hex digest of the
lowercased `player_name` (default `'anonymous'`), the score is validated
(`int(data.get('score', 0))`, must be `> 0`, else the error reply is sent and
the loop continues), and the store is updated with the `ADD` expression. -/
def handle_message (md5Hex : String → String) (now : Nat) (store : List Entry)
    (msg : SubmitMsg) : List Entry × HandlerEffect :=
  if msg.action == some "submit_score" then
    match msg.player_id with
    | none => (store, .swallowed)
    | some _ =>
      let player_name := msg.player_name.getD "anonymous"
      let pid := md5Hex (pyLower player_name)
      let lid := msg.leaderboard_id.getD "default_leaderboard"
      match pyInt (msg.score.getD (.jnum 0)) with
      | .error _ => (store, .errorReply invalidScoreMsg)
      | .ok score =>
        if score ≤ 0 then (store, .errorReply invalidScoreMsg)
        else (update_item_add store pid player_name lid now score, .stored pid)
  else (store, .ignored)

/-- `table.put_item(Item=…)` as used by `leaderboard_server.py` (lines 87–92)
and `webhook.py` (line 37): DynamoDB `put_item` replaces the whole item with
the same key, or inserts it. -/
def put_item (store : List LItem) (item : LItem) : List LItem :=
  if store.any (fun it => it.player_id == item.player_id) then
    store.map fun it => if it.player_id == item.player_id then item else it
  else store ++ [item]

/-! ## Helper lemmas about the two upsert primitives -/

/-- A keyed point-update maps every entry with a different key to itself. -/
theorem map_ite_key_id {α : Type} (key : α → String) (f : α → α) (store : List α)
    (pid : String) (h : ∀ it ∈ store, key it ≠ pid) :
    (store.map fun it => if key it == pid then f it else it) = store := by
  induction store with
  | nil => rfl
  | cons a l ih =>
    have ha := h a (List.mem_cons_self a l)
    rw [List.map_cons, if_neg (by simp [ha]), ih fun x hx => h x (List.mem_cons_of_mem a hx)]

theorem update_item_add_absent (store : List Entry) (pid pname lid : String)
    (now : Nat) (delta : Int) (h : ∀ it ∈ store, it.player_id ≠ pid) :
    update_item_add store pid pname lid now delta =
      store ++ [{ player_id := pid
                  player_name := pname
                  leaderboard_id := lid
                  score := delta
                  timestamp := now }] := by
  unfold update_item_add
  have ha : (store.any fun it => it.player_id == pid) = false := by
    apply List.any_eq_false.mpr
    intro x hx
    simp [h x hx]
  rw [ha]
  simp

theorem update_item_add_twice (store : List Entry) (pid pname lid : String)
    (t1 t2 : Nat) (d1 d2 : Int) (h : ∀ it ∈ store, it.player_id ≠ pid) :
    update_item_add (update_item_add store pid pname lid t1 d1) pid pname lid t2 d2 =
      store ++ [{ player_id := pid
                  player_name := pname
                  leaderboard_id := lid
                  score := d1 + d2
                  timestamp := t2 }] := by
  rw [update_item_add_absent store pid pname lid t1 d1 h]
  unfold update_item_add
  have hb : ((store ++ [({ player_id := pid
                           player_name := pname
                           leaderboard_id := lid
                           score := d1
                           timestamp := t1 } : Entry)]).any
      fun it => it.player_id == pid) = true := by
    simp
  rw [hb, if_pos rfl, List.map_append]
  congr 1
  · exact map_ite_key_id (fun it => it.player_id) _ store pid h
  · simp

theorem put_item_absent (store : List LItem) (item : LItem)
    (h : ∀ it ∈ store, it.player_id ≠ item.player_id) :
    put_item store item = store ++ [item] := by
  unfold put_item
  have ha : (store.any fun it => it.player_id == item.player_id) = false := by
    apply List.any_eq_false.mpr
    intro x hx
    simp [h x hx]
  rw [ha]
  simp

theorem put_item_twice (store : List LItem) (item1 item2 : LItem)
    (h : ∀ it ∈ store, it.player_id ≠ item1.player_id)
    (hsame : item2.player_id = item1.player_id) :
    put_item (put_item store item1) item2 = store ++ [item2] := by
  rw [put_item_absent store item1 h]
  unfold put_item
  have hb : ((store ++ [item1]).any fun it => it.player_id == item2.player_id) = true := by
    simp [hsame]
  rw [hb, if_pos rfl, List.map_append]
  congr 1
  · exact map_ite_key_id (fun it => it.player_id) _ store item2.player_id
      (by simpa [hsame] using h)
  · simp [hsame]

/-- Filtering an appended fresh entry by its key isolates exactly that entry:
one ranking slot. -/
theorem filter_key_append {α : Type} (key : α → String) (store : List α) (e : α)
    (pid : String) (h : ∀ it ∈ store, key it ≠ pid) (he : key e = pid) :
    ((store ++ [e]).filter fun it => key it == pid) = [e] := by
  rw [List.filter_append]
  have hnil : (store.filter fun it => key it == pid) = [] := by
    apply List.filter_eq_nil_iff.mpr
    intro a ha
    simp [h a ha]
  simp [hnil, he]

/-- A keyed `ADD` update never changes the multiset of keys beyond the target
key: the key column of the table is the same whatever display name,
leaderboard id, timestamp or delta accompany the update. -/
theorem update_item_add_keys (store : List Entry) (pid a1 l1 a2 l2 : String)
    (t1 t2 : Nat) (d1 d2 : Int) :
    (update_item_add store pid a1 l1 t1 d1).map Entry.player_id =
      (update_item_add store pid a2 l2 t2 d2).map Entry.player_id := by
  unfold update_item_add
  cases h : (store.any fun it => it.player_id == pid)
  · rw [if_neg (by simp [h]), if_neg (by simp [h])]
    simp
  · rw [if_pos (by simp [h]), if_pos (by simp [h])]
    rw [List.map_map, List.map_map]
    apply List.map_congr_left
    intro a _
    by_cases hx : a.player_id = pid <;> simp [hx]

/-- The message `{"action": "submit_score", "player_id": cid, "player_name":
name, "score": 10}`. -/
def submitTen (cid name : String) : SubmitMsg :=
  { action := some "submit_score"
    player_id := some cid
    player_name := some name
    leaderboard_id := none
    score := some (.jnum 10) }

theorem handle_message_submitTen (md5Hex : String → String) (now : Nat)
    (store : List Entry) (cid name : String) :
    handle_message md5Hex now store (submitTen cid name) =
      (update_item_add store (md5Hex (pyLower name)) name "default_leaderboard" now 10,
        .stored (md5Hex (pyLower name))) := by
  simp [handle_message, submitTen, pyInt]

/-! ## C2 artifacts -/

/-- C2: a second submission for the same entity updates the one existing
ranking slot in place.  Websocket variant (increment mode, DynamoDB `ADD`,
lines 222–266): two submissions of score 10 under the same name leave a single
row for that key holding score 20, and the table grows by exactly one row.
Replace-mode variant (`put_item`, `leaderboard_server.py` lines 87–92,
`webhook.py` line 37): the second item overwrites the first in place; still
exactly one slot. -/
theorem c2_second_submission_single_slot (md5Hex : String → String)
    (t1 t2 : Nat) (store : List Entry) (name cid : String)
    (store2 : List LItem) (item1 item2 : LItem)
    (hfresh : ∀ it ∈ store, it.player_id ≠ md5Hex (pyLower name))
    (hfresh2 : ∀ it ∈ store2, it.player_id ≠ item1.player_id)
    (hsame : item2.player_id = item1.player_id) :
    (((handle_message md5Hex t2
          (handle_message md5Hex t1 store (submitTen cid name)).1
          (submitTen cid name)).1.filter
        fun it => it.player_id == md5Hex (pyLower name)) =
        [{ player_id := md5Hex (pyLower name)
           player_name := name
           leaderboard_id := "default_leaderboard"
           score := 20
           timestamp := t2 }]
      ∧ (handle_message md5Hex t2
          (handle_message md5Hex t1 store (submitTen cid name)).1
          (submitTen cid name)).1.length = store.length + 1)
    ∧ ((put_item (put_item store2 item1) item2).filter
          (fun it => it.player_id == item1.player_id) = [item2]
        ∧ (put_item (put_item store2 item1) item2).length = store2.length + 1) := by
  constructor
  · rw [handle_message_submitTen, handle_message_submitTen]
    rw [update_item_add_twice store (md5Hex (pyLower name)) name "default_leaderboard"
      t1 t2 10 10 hfresh]
    have h20 : (10 : Int) + 10 = 20 := rfl
    rw [h20]
    constructor
    · exact filter_key_append (fun it => it.player_id) store
        ⟨md5Hex (pyLower name), name, "default_leaderboard", 20, t2⟩
        (md5Hex (pyLower name)) hfresh rfl
    · simp
  · rw [put_item_twice store2 item1 item2 hfresh2 hsame]
    constructor
    · exact filter_key_append (fun it => it.player_id) store2 item2 item1.player_id
        hfresh2 hsame
    · simp

theorem c2_witness :
    ((handle_message (fun s => s) 1
        (handle_message (fun s => s) 0 [] (submitTen "c" "A")).1
        (submitTen "c" "A")).1.filter
      fun it => it.player_id == pyLower "A") =
      [{ player_id := pyLower "A"
         player_name := "A"
         leaderboard_id := "default_leaderboard"
         score := 20
         timestamp := 1 }] :=
  (c2_second_submission_single_slot (fun s => s) 0 1 [] "A" "c" []
    { player_id := "A", player_name := some "A", score := 10, ts := 0 }
    { player_id := "A", player_name := some "A", score := 10, ts := 1 }
    (by simp) (by simp) rfl).1.1

/-! ## C3 artifacts -/

/-- The claim's precondition on the `score` field: missing (`data.get('score',
0)` yields 0), non-numeric (`int(…)` raises), or `≤ 0`. -/
def scoreInvalid (s : Option JVal) : Bool :=
  match pyInt (s.getD (.jnum 0)) with
  | .error _ => true
  | .ok n => decide (n ≤ 0)

/-- A `submit_score` message with an invalid (negative) score and no
`player_id` field. -/
def c3badMsg : SubmitMsg :=
  { action := some "submit_score"
    player_id := none
    player_name := some "Alice"
    leaderboard_id := none
    score := some (.jnum (-5)) }

/-- C3 counterexample: a `submit_score` message whose score is `-5` (so the
claim requires the error reply) but which lacks a `player_id` field is
swallowed by `data['player_id']` raising `KeyError` (line 217) before the
score validation runs: the connection gets *no* reply at all, contradicting
the claim for this concrete message. -/
theorem c3_missing_player_id_counterexample :
    c3badMsg.score = some (.jnum (-5))
    ∧ scoreInvalid c3badMsg.score = true
    ∧ (handle_message (fun s => s) 0 [] c3badMsg).2 = .swallowed
    ∧ (handle_message (fun s => s) 0 [] c3badMsg).2 ≠ .errorReply invalidScoreMsg := by
  refine ⟨rfl, rfl, rfl, ?_⟩
  decide

/-- C3 (amended): in the websocket server, every `submit_score` message that
*contains a `player_id` field* and whose score is missing, non-numeric or
`≤ 0` is answered with exactly `{'type': 'error', 'message': 'Invalid score:
must be a positive number'}`, nothing is persisted, and the connection loop
continues (no other connection is touched).  A message without `player_id` is
instead swallowed silently, and the legacy `leaderboard_server.py` performs no
score validation at all. -/
theorem c3_invalid_score_rejected (md5Hex : String → String) (now : Nat)
    (store : List Entry) (msg : SubmitMsg) (p : String)
    (ha : msg.action = some "submit_score") (hp : msg.player_id = some p)
    (hs : scoreInvalid msg.score = true) :
    handle_message md5Hex now store msg = (store, .errorReply invalidScoreMsg) := by
  cases hpy : pyInt (msg.score.getD (.jnum 0)) with
  | error e => simp [handle_message, ha, hp, hpy]
  | ok n =>
    have hn : n ≤ 0 := by
      unfold scoreInvalid at hs
      rw [hpy] at hs
      exact of_decide_eq_true hs
    simp [handle_message, ha, hp, hpy, hn]

theorem c3_witness :
    handle_message (fun s => s) 0 []
      { action := some "submit_score"
        player_id := some "z"
        player_name := some "Bob"
        leaderboard_id := none
        score := some .jnull } = ([], .errorReply invalidScoreMsg) :=
  c3_invalid_score_rejected (fun s => s) 0 [] _ "z" rfl rfl rfl

/-! ## C9 artifacts -/

/-- C9: whenever the websocket server persists a `submit_score` message, the
ranking key it stores under is `md5Hex` of the lowercased `player_name`
(defaulting to `'anonymous'` when the name is absent); the value of the
client-supplied `player_id` never influences the outcome (line 217 reads it
and line 220 immediately overwrites it); and two messages whose names agree
up to letter case produce the same effect and the same key column in the
table. -/
theorem c9_key_is_md5_of_lowercased_name (md5Hex : String → String) (now : Nat)
    (store : List Entry) (msg : SubmitMsg) (p1 p2 n1 n2 : String) :
    (∀ k, (handle_message md5Hex now store msg).2 = .stored k →
        k = md5Hex (pyLower (msg.player_name.getD "anonymous")))
    ∧ handle_message md5Hex now store { msg with player_id := some p1 } =
        handle_message md5Hex now store { msg with player_id := some p2 }
    ∧ (pyLower n1 = pyLower n2 →
        (handle_message md5Hex now store { msg with player_name := some n1 }).2 =
          (handle_message md5Hex now store { msg with player_name := some n2 }).2
        ∧ (handle_message md5Hex now store
              { msg with player_name := some n1 }).1.map Entry.player_id =
          (handle_message md5Hex now store
              { msg with player_name := some n2 }).1.map Entry.player_id) := by
  refine ⟨?_, ?_, ?_⟩
  · intro k hk
    by_cases hact : (msg.action == some "submit_score") = true
    · cases hp : msg.player_id with
      | none => simp [handle_message, hact, hp] at hk
      | some p =>
        cases hpy : pyInt (msg.score.getD (.jnum 0)) with
        | error e => simp [handle_message, hact, hp, hpy] at hk
        | ok n =>
          by_cases hn : n ≤ 0
          · simp [handle_message, hact, hp, hpy, hn] at hk
          · simp [handle_message, hact, hp, hpy, hn] at hk
            exact hk.symm
    · simp [handle_message, hact] at hk
  · rfl
  · intro hlow
    have hkey : md5Hex (pyLower n1) = md5Hex (pyLower n2) := congrArg md5Hex hlow
    by_cases hact : (msg.action == some "submit_score") = true
    · cases hp : msg.player_id with
      | none =>
        exact ⟨by simp [handle_message, hact, hp], by simp [handle_message, hact, hp]⟩
      | some p =>
        cases hpy : pyInt (msg.score.getD (.jnum 0)) with
        | error e =>
          exact ⟨by simp [handle_message, hact, hp, hpy],
            by simp [handle_message, hact, hp, hpy]⟩
        | ok n =>
          by_cases hn : n ≤ 0
          · exact ⟨by simp [handle_message, hact, hp, hpy, hn],
              by simp [handle_message, hact, hp, hpy, hn]⟩
          · have h1 : (handle_message md5Hex now store
                { msg with player_name := some n1 }).1 =
                update_item_add store (md5Hex (pyLower n1)) n1
                  (msg.leaderboard_id.getD "default_leaderboard") now n := by
              simp [handle_message, hact, hp, hpy, hn]
            have h2 : (handle_message md5Hex now store
                { msg with player_name := some n2 }).1 =
                update_item_add store (md5Hex (pyLower n2)) n2
                  (msg.leaderboard_id.getD "default_leaderboard") now n := by
              simp [handle_message, hact, hp, hpy, hn]
            rw [hp] at h1 h2
            refine ⟨by simp [handle_message, hact, hp, hpy, hn, hkey], ?_⟩
            rw [h1, h2, hkey]
            exact update_item_add_keys store (md5Hex (pyLower n2)) n1
              (msg.leaderboard_id.getD "default_leaderboard") n2
              (msg.leaderboard_id.getD "default_leaderboard") now now n n
    · exact ⟨by simp [handle_message, hact], by simp [handle_message, hact]⟩

theorem c9_witness :
    (handle_message (fun s => s) 0 []
        { action := some "submit_score"
          player_id := some "p"
          player_name := some "Alice"
          leaderboard_id := none
          score := some (.jnum 10) }).2 =
      (handle_message (fun s => s) 0 []
        { action := some "submit_score"
          player_id := some "p"
          player_name := some "ALICE"
          leaderboard_id := none
          score := some (.jnum 10) }).2 :=
  ((c9_key_is_md5_of_lowercased_name (fun s => s) 0 []
      { action := some "submit_score"
        player_id := some "p"
        player_name := none
        leaderboard_id := none
        score := some (.jnum 10) } "p" "p" "Alice" "ALICE").2.2 (by decide)).1

/-! ## Broadcast fan-out -/

/-- A subscriber channel; `sendOk` abstracts "a send on this channel
succeeds" (the spec's fault-isolation scenario is about a channel that always
fails to send). -/
structure Chan where
  cid : Nat
  sendOk : Bool
deriving DecidableEq, Repr

/-- `broadcast_leaderboard` (`leaderboard_websocket.py` lines 126–153):
early-return when no clients; send to every connection, marking the failing
ones in `dead_connections`; after the loop remove each dead connection from
the set (`if connection in connected: connected.remove(connection)`).
Returns `(delivered, new connected set)`. -/
def broadcast_leaderboard (connected : List Chan) : List Chan × List Chan :=
  if connected.isEmpty then ([], connected)
  else
    let delivered := connected.filter fun c => c.sendOk
    let dead := connected.filter fun c => !c.sendOk
    (delivered, dead.foldl (fun acc c => acc.erase c) connected)

/-- The broadcast loop of `leaderboard_server.update_leaderboard`
(lines 61–66): iterate over the live set; on a send failure call
`connected.remove(connection)` *during* iteration.  CPython then raises
`RuntimeError: Set changed size during iteration` at the next step of the
iterator, aborting the loop.  Returns the deliveries actually made and
whether the loop aborted. -/
def update_leaderboard_send : List Chan → List Chan × Bool
  | [] => ([], false)
  | c :: rest =>
    if c.sendOk then
      let r := update_leaderboard_send rest
      (c :: r.1, r.2)
    else ([], true)

theorem foldl_erase_cons {α : Type} [DecidableEq α] (x : α) :
    ∀ (ds l : List α), (∀ c ∈ ds, c ≠ x) →
      ds.foldl (fun acc c => acc.erase c) (x :: l) =
        x :: ds.foldl (fun acc c => acc.erase c) l
  | [], l, _ => rfl
  | d :: ds, l, h => by
    have hd : d ≠ x := h d (List.mem_cons_self d ds)
    rw [List.foldl_cons, List.foldl_cons,
      List.erase_cons_tail (by simp [Ne.symm hd]),
      foldl_erase_cons x ds (l.erase d) fun c hc => h c (List.mem_cons_of_mem d hc)]

/-- Removing, from a duplicate-free list, every element failing `p` leaves
exactly the elements satisfying `p`. -/
theorem foldl_erase_filter {α : Type} [DecidableEq α] (p : α → Bool) :
    ∀ l : List α, l.Nodup →
      ((l.filter fun c => !p c).foldl (fun acc c => acc.erase c) l) = l.filter p
  | [], _ => rfl
  | x :: xs, h => by
    have hx : x ∉ xs := (List.nodup_cons.mp h).1
    have hnd : xs.Nodup := (List.nodup_cons.mp h).2
    cases hp : p x
    · rw [List.filter_cons_of_pos (by simp [hp]), List.foldl_cons,
        List.erase_cons_head, List.filter_cons_of_neg (by simp [hp])]
      exact foldl_erase_filter p xs hnd
    · rw [List.filter_cons_of_neg (by simp [hp]), List.filter_cons_of_pos (by simp [hp])]
      rw [foldl_erase_cons x _ xs fun c hc => fun hcx =>
        hx (hcx ▸ List.mem_of_mem_filter hc)]
      rw [foldl_erase_filter p xs hnd]

/-! ## C4 artifacts -/

def c4chanDead : Chan := { cid := 0, sendOk := false }

def c4chanLive : Chan := { cid := 1, sendOk := true }

/-- C4 counterexample: in `leaderboard_server.update_leaderboard`, a registry
holding a failing channel followed by a healthy one delivers to *nobody*: the
failing send removes the channel from the set mid-iteration, the iterator
raises `RuntimeError`, and the healthy channel never receives the message —
so a send failure does prevent delivery to the remaining channels there. -/
theorem c4_set_mutation_counterexample :
    c4chanLive.sendOk = true
    ∧ (update_leaderboard_send [c4chanDead, c4chanLive]).2 = true
    ∧ c4chanLive ∉ (update_leaderboard_send [c4chanDead, c4chanLive]).1 := by
  refine ⟨rfl, rfl, ?_⟩
  decide

/-- C4 (amended): the rewritten broadcast loop of
`leaderboard_websocket.broadcast_leaderboard` has the claimed fault
isolation: every channel whose send succeeds receives the message whatever
other channels fail, and exactly the failing channels are removed from the
registry.  The older `leaderboard_server.update_leaderboard` instead mutates
the set during iteration: a send failure removes that channel but aborts the
broadcast with a `RuntimeError`, skipping the channels not yet served. -/
theorem c4_ws_broadcast_isolation (connected : List Chan)
    (hnd : connected.Nodup) :
    broadcast_leaderboard connected =
      (connected.filter fun c => c.sendOk, connected.filter fun c => c.sendOk) := by
  unfold broadcast_leaderboard
  by_cases he : connected.isEmpty
  · rw [if_pos he]
    rw [List.isEmpty_iff.mp he]
    rfl
  · rw [if_neg he]
    show (List.filter (fun c => c.sendOk) connected,
        List.foldl (fun acc c => acc.erase c) connected
          (List.filter (fun c => !c.sendOk) connected)) = _
    rw [foldl_erase_filter (fun c => c.sendOk) connected hnd]

theorem c4_witness :
    broadcast_leaderboard [c4chanDead, c4chanLive] = ([c4chanLive], [c4chanLive]) := by
  rw [c4_ws_broadcast_isolation [c4chanDead, c4chanLive] (by decide)]
  rfl

/-! ## Refresh cycle and forced refresh -/

/-- One iteration of the `update_leaderboard` background loop of the
websocket server (lines 159–173): do nothing without connected clients;
fetch a fresh ranking; replace and broadcast only when it differs by value
from the published one.  Returns the published snapshot afterwards and
whether a broadcast was issued. -/
def update_cycle (connected : List Chan) (current fresh : List Entry) :
    List Entry × Bool :=
  if connected.isEmpty then (current, false)
  else if fresh ≠ current then (fresh, true)
  else (current, false)

/-- The forced refresh after a persisted submission (lines 274–277):
`current_leaderboard = await get_leaderboard()` then
`await broadcast_leaderboard()` — no comparison with the published snapshot;
the broadcast goes out (to the non-empty connected set, which contains at
least the submitter) unconditionally. -/
def forced_refresh (connected : List Chan) (_currentLb fresh : List Entry) :
    List Entry × Bool :=
  (fresh, !connected.isEmpty)

/-! ## C6 artifacts -/

def c6entry : Entry :=
  { player_id := "e", player_name := "e", leaderboard_id := "default_leaderboard",
    score := 1, timestamp := 0 }

/-- C6 counterexample: with the published snapshot equal by value to the
freshly recomputed one, the periodic cycle correctly stays silent, but the
submission-forced refresh still broadcasts (`didBroadcast = true` with
`fresh = current = [c6entry]`), contradicting "a broadcast occurs only when
the recomputed ranking differs from the last published one". -/
theorem c6_forced_broadcast_counterexample :
    update_cycle [{ cid := 0, sendOk := true }] [c6entry] [c6entry] = ([c6entry], false)
    ∧ forced_refresh [{ cid := 0, sendOk := true }] [c6entry] [c6entry] =
        ([c6entry], true) := by
  constructor
  · rfl
  · rfl

/-- C6 (amended): the *periodic* recomputation cycle suppresses the broadcast
whenever the fresh ranking equals the published snapshot by value; the
submission-forced refresh (lines 274–277) broadcasts unconditionally whenever
any client is connected, even when the recomputed ranking is unchanged. -/
theorem c6_cycle_suppression (connected : List Chan) (current fresh : List Entry) :
    (fresh = current → update_cycle connected current fresh = (current, false))
    ∧ (connected ≠ [] → (forced_refresh connected current fresh).2 = true) := by
  constructor
  · intro h
    unfold update_cycle
    by_cases he : connected.isEmpty
    · rw [if_pos he]
    · rw [if_neg he, if_neg (by simp [h])]
  · intro h
    cases connected with
    | nil => exact absurd rfl h
    | cons a l => rfl

theorem c6_witness :
    update_cycle [] [] [] = ([], false)
    ∧ (forced_refresh [{ cid := 0, sendOk := true }] [] []).2 = true :=
  ⟨(c6_cycle_suppression [] [] []).1 rfl,
   (c6_cycle_suppression [{ cid := 0, sendOk := true }] [] []).2 (by simp)⟩

/-! ## Connection / background-task lifecycle (`handle_connection`,
lines 183–302) -/

/-- The module-level state of the websocket server: the `connected` set, the
`update_task` (abstracted to whether the recurring task is running — the task
loops forever, so it is `done` only after cancellation), the published
`current_leaderboard`, and a count of broadcasts issued. -/
structure Sys where
  connected : List Chan
  taskRunning : Bool
  published : List Entry
  broadcasts : Nat
deriving DecidableEq, Repr

/-- Lifecycle events: a client connects (lines 188–206: start `update_task`
if not running, computing the initial snapshot `fresh` first, then add the
client), one iteration of the background loop (runs only while the task
exists), and a client disconnect (lines 290–302: discard from `connected`;
if none remain, cancel the task and await it). -/
inductive Ev where
  | connect (c : Chan) (fresh : List Entry)
  | tick (fresh : List Entry)
  | disconnect (c : Chan)
deriving Repr

def stepSys (s : Sys) : Ev → Sys
  | .connect c fresh =>
    let s1 := if s.taskRunning then s
      else { s with published := fresh, taskRunning := true }
    { s1 with connected := if s1.connected.contains c then s1.connected
        else s1.connected ++ [c] }
  | .tick fresh =>
    if s.taskRunning then
      let r := update_cycle s.connected s.published fresh
      { s with published := r.1, broadcasts := s.broadcasts + (if r.2 then 1 else 0) }
    else s
  | .disconnect c =>
    let conn := s.connected.erase c
    if conn.isEmpty && s.taskRunning then
      { s with connected := conn, taskRunning := false }
    else { s with connected := conn }

def initSys : Sys :=
  { connected := [], taskRunning := false, published := [], broadcasts := 0 }

def runSys (evs : List Ev) : Sys := evs.foldl stepSys initSys

/-- The lifecycle invariant the source maintains: the background task runs
exactly while the connected set is non-empty. -/
def SysInv (s : Sys) : Prop := s.taskRunning = !s.connected.isEmpty

theorem stepSys_inv (s : Sys) (e : Ev) (h : SysInv s) : SysInv (stepSys s e) := by
  unfold SysInv at h ⊢
  cases e with
  | connect c fresh =>
    simp only [stepSys]
    by_cases ht : s.taskRunning = true
    · rw [if_pos ht]
      by_cases hc : s.connected.contains c = true
      · have hm : c ∈ s.connected := by simpa using hc
        have hne : s.connected ≠ [] := List.ne_nil_of_mem hm
        simp [hm, ht, hne]
      · have hm : c ∉ s.connected := by simpa using hc
        have hne : s.connected ++ [c] ≠ [] := by simp
        simp [hm, ht, hne]
    · have ht' : s.taskRunning = false := by
        cases hb : s.taskRunning
        · rfl
        · exact absurd hb ht
      rw [if_neg ht]
      have hempty : s.connected = [] := by
        rw [ht'] at h
        cases hl : s.connected with
        | nil => rfl
        | cons a l => rw [hl] at h; simp at h
      simp [hempty]
  | tick fresh =>
    simp only [stepSys]
    by_cases ht : s.taskRunning = true
    · rw [if_pos ht]
      simpa using h
    · rw [if_neg ht]
      exact h
  | disconnect c =>
    simp only [stepSys]
    by_cases hcond : ((s.connected.erase c).isEmpty && s.taskRunning) = true
    · rw [if_pos hcond]
      have hie : (s.connected.erase c).isEmpty = true := by
        have hc := hcond
        simp only [Bool.and_eq_true] at hc
        exact hc.1
      simp [hie]
    · rw [if_neg hcond]
      cases hie : (s.connected.erase c).isEmpty
      · have hne : s.connected ≠ [] := by
          intro hnil
          rw [hnil] at hie
          simp at hie
        have htr : s.taskRunning = true := by
          rw [h]
          cases hl : s.connected with
          | nil => exact absurd hl hne
          | cons a l => simp
        simp [hie, htr]
      · have hfa : s.taskRunning = false := by
          cases hb : s.taskRunning
          · rfl
          · exact absurd (show ((s.connected.erase c).isEmpty
              && s.taskRunning) = true by rw [hie, hb]; rfl) hcond
        simp [hie, hfa]

theorem runSys_inv (evs : List Ev) : SysInv (runSys evs) := by
  have hstep : ∀ s, SysInv s → SysInv (evs.foldl stepSys s) := by
    induction evs with
    | nil => exact fun s h => h
    | cons e evs ih => exact fun s h => ih _ (stepSys_inv s e h)
  exact hstep initSys rfl

/-- The decoded body of a `webhook.py` request. -/
structure WebhookBody where
  action : Option String
  player_id : Option String
  player_name : Option String
  score : Option JVal
deriving DecidableEq, Repr

/-- `webhook.handler` (lines 13–57) for the `submit_score` action: build the
item from `body['player_id']` and `int(body['score'])` (a missing field or an
unparsable score raises, is caught, and answers 500), `put_item` it, and
answer 200 with the leaderboard.  Persistence involves no subscriber or
websocket state whatsoever. -/
def webhook_handler (store : List LItem) (now : Nat) (body : WebhookBody) :
    List LItem × Nat :=
  if body.action.getD "" == "submit_score" then
    match body.player_id, body.score with
    | some pid, some sv =>
      match pyInt sv with
      | .ok n =>
        (put_item store { player_id := pid
                          player_name := body.player_name
                          score := n
                          ts := now }, 200)
      | .error _ => (store, 500)
    | _, _ => (store, 500)
  else if body.action.getD "" == "get_leaderboard" then (store, 200)
  else (store, 400)

/-! ## C7 artifacts -/

/-- C7: in every reachable state with no subscribers the background task is
not running, so a timer tick changes nothing — no recomputation, no
broadcast, no snapshot replacement; the first `connect` from such a state
starts the task; a `disconnect` that empties the set stops it (the code
cancels and awaits the task, modelled as the atomic `taskRunning := false`
transition); and a webhook submission persists to the durable store by
`put_item` unconditionally — its result never mentions subscriber state. -/
theorem c7_idle_no_cycle_and_persistence (evs : List Ev) (fresh : List Entry)
    (store : List LItem) (now : Nat) (pid : String) (pname : Option String)
    (n : Int) (c : Chan) (f2 : List Entry)
    (hidle : (runSys evs).connected = []) :
    (runSys evs).taskRunning = false
    ∧ stepSys (runSys evs) (.tick fresh) = runSys evs
    ∧ (stepSys (runSys evs) (.connect c f2)).taskRunning = true
    ∧ (∀ s : Sys, (s.connected.erase c).isEmpty = true →
        (stepSys s (.disconnect c)).taskRunning = false)
    ∧ webhook_handler store now
        { action := some "submit_score"
          player_id := some pid
          player_name := pname
          score := some (.jnum n) } =
        (put_item store { player_id := pid
                          player_name := pname
                          score := n
                          ts := now }, 200) := by
  have hrun : (runSys evs).taskRunning = false := by
    have h := runSys_inv evs
    unfold SysInv at h
    rw [hidle] at h
    simpa using h
  refine ⟨hrun, ?_, ?_, ?_, ?_⟩
  · simp only [stepSys]
    rw [if_neg (by rw [hrun]; exact Bool.false_ne_true)]
  · simp only [stepSys]
    rw [if_neg (by rw [hrun]; exact Bool.false_ne_true)]
  · intro s hse
    simp only [stepSys]
    by_cases ht : s.taskRunning = true
    · rw [if_pos (by rw [hse, ht]; rfl)]
    · cases hb : s.taskRunning
      · rw [if_neg (by simp)]
      · exact absurd hb ht
  · rfl

theorem c7_witness :
    (runSys []).taskRunning = false
    ∧ stepSys (runSys []) (.tick []) = runSys [] :=
  ⟨(c7_idle_no_cycle_and_persistence [] [] [] 0 "p" none 1
      { cid := 0, sendOk := true } [] rfl).1,
   (c7_idle_no_cycle_and_persistence [] [] [] 0 "p" none 1
      { cid := 0, sendOk := true } [] rfl).2.1⟩

/-! ## `convert_decimals` (`leaderboard_websocket.py` lines 72–79,
`leaderboard_server.py` lines 32–40 — identical code) -/

mutual
/-- A Python value as `convert_decimals` sees it: dicts, lists,
`decimal.Decimal` leaves, floats, and the other JSON-ish leaves the tables
contain, all returned untouched by the function's final `return obj`. -/
inductive PyObj where
  | dict (fields : PyFields)
  | pylist (items : PyList)
  | dec (d : Rat)
  | flt (x : Rat)
  | pystr (s : String)
  | pyint (n : Int)
  | pybool (b : Bool)
  | pynone
/-- A Python list of such values. -/
inductive PyList where
  | nil
  | cons (head : PyObj) (tail : PyList)
/-- The key/value pairs of a Python dict, in insertion order. -/
inductive PyFields where
  | nil
  | cons (key : String) (val : PyObj) (tail : PyFields)
end

mutual
/-- `convert_decimals(obj)`: dict → rebuild with converted values, list →
convert elementwise, `Decimal` → `float(obj)` (the float conversion itself is
the uninterpreted `pyFloat`), anything else → returned unchanged. -/
def convert_decimals (pyFloat : Rat → Rat) : PyObj → PyObj
  | .dict kvs => .dict (convert_decimals_fields pyFloat kvs)
  | .pylist xs => .pylist (convert_decimals_list pyFloat xs)
  | .dec d => .flt (pyFloat d)
  | .flt x => .flt x
  | .pystr s => .pystr s
  | .pyint n => .pyint n
  | .pybool b => .pybool b
  | .pynone => .pynone
/-- `[convert_decimals(i) for i in obj]`. -/
def convert_decimals_list (pyFloat : Rat → Rat) : PyList → PyList
  | .nil => .nil
  | .cons x xs => .cons (convert_decimals pyFloat x) (convert_decimals_list pyFloat xs)
/-- `{k: convert_decimals(v) for k, v in obj.items()}`. -/
def convert_decimals_fields (pyFloat : Rat → Rat) : PyFields → PyFields
  | .nil => .nil
  | .cons k v kvs =>
    .cons k (convert_decimals pyFloat v) (convert_decimals_fields pyFloat kvs)
end

def PyFields.keys : PyFields → List String
  | .nil => []
  | .cons k _ kvs => k :: kvs.keys

def PyList.length : PyList → Nat
  | .nil => 0
  | .cons _ xs => xs.length + 1

def PyList.get? : PyList → Nat → Option PyObj
  | .nil, _ => none
  | .cons x _, 0 => some x
  | .cons _ xs, n + 1 => xs.get? n

mutual
theorem convert_decimals_idem (f : Rat → Rat) :
    ∀ x : PyObj, convert_decimals f (convert_decimals f x) = convert_decimals f x
  | .dict kvs => congrArg PyObj.dict (convert_decimals_fields_idem f kvs)
  | .pylist xs => congrArg PyObj.pylist (convert_decimals_list_idem f xs)
  | .dec _ => rfl
  | .flt _ => rfl
  | .pystr _ => rfl
  | .pyint _ => rfl
  | .pybool _ => rfl
  | .pynone => rfl
theorem convert_decimals_list_idem (f : Rat → Rat) :
    ∀ xs : PyList,
      convert_decimals_list f (convert_decimals_list f xs) = convert_decimals_list f xs
  | .nil => rfl
  | .cons x xs => by
    show PyList.cons (convert_decimals f (convert_decimals f x))
        (convert_decimals_list f (convert_decimals_list f xs)) =
      PyList.cons (convert_decimals f x) (convert_decimals_list f xs)
    rw [convert_decimals_idem f x, convert_decimals_list_idem f xs]
theorem convert_decimals_fields_idem (f : Rat → Rat) :
    ∀ kvs : PyFields,
      convert_decimals_fields f (convert_decimals_fields f kvs) =
        convert_decimals_fields f kvs
  | .nil => rfl
  | .cons k v kvs => by
    show PyFields.cons k (convert_decimals f (convert_decimals f v))
        (convert_decimals_fields f (convert_decimals_fields f kvs)) =
      PyFields.cons k (convert_decimals f v) (convert_decimals_fields f kvs)
    rw [convert_decimals_idem f v, convert_decimals_fields_idem f kvs]
end

theorem convert_decimals_fields_keys (f : Rat → Rat) :
    ∀ kvs : PyFields, (convert_decimals_fields f kvs).keys = kvs.keys
  | .nil => rfl
  | .cons k v kvs => by
    show k :: (convert_decimals_fields f kvs).keys = k :: kvs.keys
    rw [convert_decimals_fields_keys f kvs]

theorem convert_decimals_list_length (f : Rat → Rat) :
    ∀ xs : PyList, (convert_decimals_list f xs).length = xs.length
  | .nil => rfl
  | .cons x xs => by
    show (convert_decimals_list f xs).length + 1 = xs.length + 1
    rw [convert_decimals_list_length f xs]

theorem convert_decimals_list_get (f : Rat → Rat) :
    ∀ (xs : PyList) (i : Nat),
      (convert_decimals_list f xs).get? i = (xs.get? i).map (convert_decimals f)
  | .nil, _ => rfl
  | .cons _ _, 0 => rfl
  | .cons _ xs, n + 1 => convert_decimals_list_get f xs n

/-! ## C10 artifacts -/

/-- C10: `convert_decimals` is idempotent and structure-preserving, for any
semantics `f` of Python's `float(Decimal)`: applying it twice equals applying
it once; it preserves dict keys (with their insertion order), list lengths and
element order (the `i`-th output element is the conversion of the `i`-th input
element); every non-`Decimal` leaf, floats included, is returned unchanged;
and every `Decimal` leaf becomes its float value. -/
theorem c10_convert_decimals_idempotent_structure (f : Rat → Rat) (x : PyObj)
    (xs : PyList) (kvs : PyFields) (d q : Rat) (s : String) (n : Int) (b : Bool)
    (i : Nat) :
    convert_decimals f (convert_decimals f x) = convert_decimals f x
    ∧ (convert_decimals_fields f kvs).keys = kvs.keys
    ∧ (convert_decimals_list f xs).length = xs.length
    ∧ (convert_decimals_list f xs).get? i = (xs.get? i).map (convert_decimals f)
    ∧ convert_decimals f (.dec d) = .flt (f d)
    ∧ convert_decimals f (.flt q) = .flt q
    ∧ convert_decimals f (.pystr s) = .pystr s
    ∧ convert_decimals f (.pyint n) = .pyint n
    ∧ convert_decimals f (.pybool b) = .pybool b
    ∧ convert_decimals f .pynone = .pynone :=
  ⟨convert_decimals_idem f x, convert_decimals_fields_keys f kvs,
    convert_decimals_list_length f xs, convert_decimals_list_get f xs i,
    rfl, rfl, rfl, rfl, rfl, rfl⟩

end Leaderboard
